import Mathlib

/-
  Verification of the kss interactive diagnosis dashboard and doctor engine.
  The Go sources are shallowly embedded: pure Go functions become Lean
  functions over explicit data types; external collaborators (kubectl
  invocations, the bubbles list/viewport widgets, lipgloss styling, the
  RFC3339 time parser) are passed in as explicit function parameters or
  abstracted to the data they produce.  Machine integers stay within the
  ranges used by the program, so Int models Go int exactly on these paths.
-/

namespace Kss

/-! ## String primitives: Go strings.Contains / strings.ToLower

Go strings are sequences of runes; the analysis patterns are all ASCII, and
Go unicode.ToLower agrees with Char.toLower on ASCII, so rune-wise
lowering is embedded char-wise. -/

/-- True when the pattern is an initial segment of the char list
(helper for substring search, mirroring what strings.Contains decides). -/
def charsStartWith : List Char → List Char → Bool
  | _, [] => true
  | [], _ :: _ => false
  | c :: cs, d :: ds => c = d && charsStartWith cs ds

/-- True when the pattern occurs contiguously inside the char list. -/
def charsContain : List Char → List Char → Bool
  | [], pat => pat.isEmpty
  | c :: cs, pat => charsStartWith (c :: cs) pat || charsContain cs pat

/-- Go strings.Contains on the embedded strings. -/
def goContains (s pat : String) : Bool :=
  charsContain s.data pat.data

/-- Go strings.ToLower, rune-wise lowering (ASCII-faithful). -/
def goToLower (s : String) : String :=
  String.mk (s.data.map Char.toLower)

/-- The apostrophe character, used to build the Go message strings that
contain one. -/
def aposC : Char := Char.ofNat 39

/-! ## internal/model: container status data (src/unnamed/part_004) -/

/-- model.WaitingState. -/
structure WaitingState where
  reason : String
  message : String := ""
  deriving DecidableEq, Repr

/-- model.RunningState. -/
structure RunningState where
  startedAt : String := ""
  deriving DecidableEq, Repr

/-- model.TerminatedState. -/
structure TerminatedState where
  exitCode : Int
  message : String := ""
  finishedAt : String := ""
  startedAt : String := ""
  deriving DecidableEq, Repr

/-- model.ContainerState: the three optional lifecycle phases. -/
structure ContainerState where
  waiting : Option WaitingState := none
  running : Option RunningState := none
  terminated : Option TerminatedState := none
  deriving DecidableEq, Repr

/-- model.ContainerStatus. -/
structure ContainerStatus where
  name : String := ""
  state : ContainerState := {}
  lastState : Option ContainerState := none
  ready : Bool := false
  restartCount : Int := 0
  image : String := ""
  imageID : String := ""
  deriving DecidableEq, Repr

/-- model.PodMetadata (map-valued label/annotation fields, unused by the
verified paths, are omitted). -/
structure PodMetadata where
  name : String := ""
  namespaceName : String := ""
  creationTimestamp : String := ""
  deriving DecidableEq, Repr

/-- model.PodStatus (fields consumed by the verified paths). -/
structure PodStatus where
  initContainerStatuses : List ContainerStatus := []
  containerStatuses : List ContainerStatus := []
  phase : String := ""
  startTime : String := ""
  deriving DecidableEq, Repr

/-- model.Pod. -/
structure Pod where
  metadata : PodMetadata := {}
  status : PodStatus := {}
  deriving DecidableEq, Repr

/-! ## internal/doctor: the pure diagnostic engine (src/unnamed/part_019) -/

/-- Issue text for terminated exit code 137. -/
def oomMsg : String :=
  "Likely OOMKilled (Out of Memory). Your container exceeded its memory limits."

/-- Issue text for terminated exit code 127 (the Go literal contains an
apostrophe, reconstructed from its char code). -/
def cmdNotFoundMsg : String :=
  "Command not found. Check your container" ++ String.singleton aposC ++
    "s entrypoint or command."

/-- Issue text for the image-pull waiting reasons. -/
def imagePullMsg : String :=
  "Failed to pull image. Check if the image name/tag is correct and if the registry requires authentication."

/-- Issue text for waiting reason CrashLoopBackOff. -/
def crashLoopMsg : String :=
  "Container is crashing repeatedly. Check application logs for errors during startup."

/-- Issue text for waiting reason CreateContainerConfigError. -/
def configErrMsg : String :=
  "Configuration error. Likely a missing ConfigMap or Secret."

/-- The checkTerminated closure of doctor.AnalyzeContainerState: issues
derived from an optional terminated state, keyed on the exit code. -/
def terminatedIssues : Option TerminatedState → List String
  | none => []
  | some st =>
    if st.exitCode = 137 then [oomMsg]
    else if st.exitCode = 1 || st.exitCode = 2 then
      ["Application crashed (Exit Code " ++ toString st.exitCode ++
        "). This is usually an internal application error."]
    else if st.exitCode = 127 then [cmdNotFoundMsg]
    else []

/-- doctor.AnalyzeContainerState: terminated-state issues (current state
first, else last state) followed by waiting-reason issues. -/
def AnalyzeContainerState (c : ContainerStatus) : List String :=
  let termPart :=
    if c.state.terminated.isSome then terminatedIssues c.state.terminated
    else
      match c.lastState with
      | some last => terminatedIssues last.terminated
      | none => []
  let waitPart :=
    match c.state.waiting with
    | none => []
    | some w =>
      if w.reason = "ImagePullBackOff" || w.reason = "ErrImagePull" then [imagePullMsg]
      else if w.reason = "CrashLoopBackOff" then [crashLoopMsg]
      else if w.reason = "CreateContainerConfigError" then [configErrMsg]
      else []
  termPart ++ waitPart

/-- Log-analysis issue text: network errors. -/
def netErrMsg : String :=
  "Network error detected (Connection Refused). Check if dependent services are reachable."

/-- Log-analysis issue text: timeouts. -/
def timeoutMsg : String :=
  "Timeout detected. A service or resource might be slow or unreachable."

/-- Log-analysis issue text: permission problems (the Go literal contains
an apostrophe, reconstructed from its char code). -/
def permDeniedMsg : String :=
  "Permission denied. Check the Pod" ++ String.singleton aposC ++
    "s SecurityContext or file system permissions."

/-- Log-analysis issue text: missing file or configuration. -/
def missingFileMsg : String :=
  "Missing file or configuration. Check your volume mounts and ConfigMaps."

/-- The body of doctor.AnalyzeLogs after the empty-input guard, applied to
the lowered log text; the four substring rules fire independently and
cumulatively in source order. -/
def analyzeLowerLogs (lowerLogs : String) : List String :=
  (if goContains lowerLogs "connection refused" || goContains lowerLogs "dial tcp"
    then [netErrMsg] else [])
  ++ (if goContains lowerLogs "timeout" || goContains lowerLogs "deadline exceeded"
    then [timeoutMsg] else [])
  ++ (if goContains lowerLogs "permission denied" || goContains lowerLogs "forbidden"
    then [permDeniedMsg] else [])
  ++ (if goContains lowerLogs "not found" &&
        (goContains lowerLogs "config" || goContains lowerLogs "file")
    then [missingFileMsg] else [])

/-- doctor.AnalyzeLogs: empty input short-circuits to no issues; otherwise
the input is lowered once and scanned by the four substring rules. -/
def AnalyzeLogs (logs : String) : List String :=
  if logs = "" then [] else analyzeLowerLogs (goToLower logs)

/-! ## internal/doctor: the CLI orchestration DiagnosePod (src/unnamed/part_019)

kube.ShowLog shells out to kubectl; it is embedded as an oracle
fetchLog : String -> Bool -> Option String taking the tail limit
(args.MaxLines, set to "100" around both calls) and the previous flag,
returning none when ShowLog returns a non-nil error. -/

/-- The inlined log-fetch condition of DiagnosePod.diagnoseContainer
(terminated, or restarted, or waiting in CrashLoopBackOff). -/
def cliShouldFetchLogs (c : ContainerStatus) : Bool :=
  c.state.terminated.isSome || decide (0 < c.restartCount) ||
    (match c.state.waiting with
     | some w => w.reason = "CrashLoopBackOff"
     | none => false)

/-- The log text DiagnosePod.diagnoseContainer ends up holding: the
previous-instance log is requested when the container restarted, and when
that request errors or returns empty text the current log is fetched
instead. -/
def cliLogsForAnalysis (fetchLog : String → Bool → Option String)
    (restartCount : Int) : Option String :=
  let usePrevious := decide (0 < restartCount)
  let first := fetchLog "100" usePrevious
  if usePrevious && (first.isNone || first = some "") then fetchLog "100" false
  else first

/-- The issue list DiagnosePod.diagnoseContainer accumulates: container
state issues, then AnalyzeLogs issues when a log fetch was attempted and
produced nonempty text. -/
def cliIssues (fetchLog : String → Bool → Option String)
    (c : ContainerStatus) : List String :=
  let issues := AnalyzeContainerState c
  if cliShouldFetchLogs c then
    match cliLogsForAnalysis fetchLog c.restartCount with
    | some logs => if logs = "" then issues else issues ++ AnalyzeLogs logs
    | none => issues
  else issues

/-- What DiagnosePod.diagnoseContainer prints for one container: a
diagnosis block, a standalone stability warning, or nothing. -/
inductive ContainerReport where
  | diagnosis (issues : List String)
  | stabilityWarning (restartCount : Int)
  | silent
  deriving DecidableEq, Repr

/-- True exactly on the stabilityWarning constructor. -/
def ContainerReport.isStabilityWarning : ContainerReport → Bool
  | .stabilityWarning _ => true
  | _ => false

/-- DiagnosePod.diagnoseContainer, reduced to the report it prints: issues
win; otherwise the explicit Doctor check fires for a running container
with any restarts at all (args.Doctor gates it). -/
def diagnoseContainerCLI (fetchLog : String → Bool → Option String)
    (doctorFlag : Bool) (c : ContainerStatus) : ContainerReport :=
  let issues := cliIssues fetchLog c
  if issues ≠ [] then .diagnosis issues
  else if doctorFlag && c.state.running.isSome && decide (0 < c.restartCount) then
    .stabilityWarning c.restartCount
  else .silent

/-! ## internal/tui: the dashboard doctor analysis (src/internal/tui/tui.go) -/

/-- tui.Severity. -/
inductive Severity where
  | info
  | warning
  | critical
  deriving DecidableEq, Repr

/-- tui.DoctorFinding. -/
structure DoctorFinding where
  severity : Severity
  message : String
  remediation : String
  containerName : String
  isInitContainer : Bool
  deriving DecidableEq, Repr

/-- tui.DoctorResults (AnalyzedAt carried as abstract seconds). -/
structure DoctorResults where
  resourceName : String := ""
  resourceType : String := ""
  findings : List DoctorFinding := []
  analyzedAt : Int := 0
  deriving DecidableEq, Repr

/-- tui.shouldAnalyzeLogs. -/
def shouldAnalyzeLogs (c : ContainerStatus) : Bool :=
  c.state.terminated.isSome || decide (0 < c.restartCount) ||
    (match c.state.waiting with
     | some w => w.reason = "CrashLoopBackOff"
     | none => false)

/-- tui.categorizeAndRemediate: severity and remediation from the lowered
issue text (the container argument is accepted and unused, as in the
source). -/
def categorizeAndRemediate (issue : String) (_c : ContainerStatus) :
    Severity × String :=
  let issueLower := goToLower issue
  if goContains issueLower "oomkilled" then
    (.critical, "Increase memory limits in pod spec. Check resource usage patterns in monitoring.")
  else if goContains issueLower "imagepullbackoff" || goContains issueLower "errimagepull" then
    (.critical, "Verify image name/tag. Check imagePullSecrets if registry requires authentication.")
  else if goContains issueLower "crashloopbackoff" then
    (.critical, "Review application logs for startup errors. Check readiness/liveness probe configuration.")
  else if goContains issueLower "createcontainerconfigerror" then
    (.critical, "Verify referenced ConfigMaps and Secrets exist. Check volume mount configurations.")
  else if goContains issueLower "exit code" then
    (.warning, "Application exited with error. Review logs and check application health.")
  else if goContains issueLower "command not found" then
    (.warning, "Verify container entrypoint/command in pod spec. Check binary exists in container image.")
  else
    (.info, "Review container status and logs for additional context.")

/-- tui.categorizeLogIssue. -/
def categorizeLogIssue (issue : String) : Severity × String :=
  let issueLower := goToLower issue
  if goContains issueLower "connection refused" || goContains issueLower "dial tcp" then
    (.warning, "Ensure dependent services are running and accessible. Check service DNS and network policies.")
  else if goContains issueLower "timeout" || goContains issueLower "deadline exceeded" then
    (.warning, "Increase timeout values if appropriate. Check service responsiveness and network latency.")
  else if goContains issueLower "permission denied" || goContains issueLower "forbidden" then
    (.warning, "Review Pod SecurityContext, serviceAccount permissions, and file ownership.")
  else if goContains issueLower "missing file" || goContains issueLower "not found" then
    (.warning, "Verify volume mounts and ConfigMap/Secret contents. Check file paths in application config.")
  else
    (.info, "Review logs for additional context and error patterns.")

/-- A finding built from one AnalyzeContainerState issue (section 1 of
tui.analyzeContainer). -/
def mkStateFinding (issue : String) (c : ContainerStatus) (isInit : Bool) :
    DoctorFinding :=
  let sr := categorizeAndRemediate issue c
  { severity := sr.1, message := issue, remediation := sr.2,
    containerName := c.name, isInitContainer := isInit }

/-- Section 1 of tui.analyzeContainer: container-state findings. -/
def stateFindings (c : ContainerStatus) (isInit : Bool) : List DoctorFinding :=
  (AnalyzeContainerState c).map (fun issue => mkStateFinding issue c isInit)

/-- Section 2 of tui.analyzeContainer: the high-restart stability warning,
emitted for a running container with more than three restarts regardless
of any other findings. -/
def stabilityFindings (c : ContainerStatus) (isInit : Bool) : List DoctorFinding :=
  if c.state.running.isSome && decide (3 < c.restartCount) then
    [{ severity := .warning,
       message := "Container has restarted " ++ toString c.restartCount ++ " times",
       remediation := "Check logs for intermittent crashes. Consider increasing memory/CPU limits or reviewing application stability.",
       containerName := c.name, isInitContainer := isInit }]
  else []

/-- A finding built from one AnalyzeLogs issue (section 3 of
tui.analyzeContainer). -/
def mkLogFinding (issue : String) (c : ContainerStatus) (isInit : Bool) :
    DoctorFinding :=
  let sr := categorizeLogIssue issue
  { severity := sr.1, message := issue, remediation := sr.2,
    containerName := c.name, isInitContainer := isInit }

/-- The log findings produced from the outcome of the single ShowLog call
tui.analyzeContainer makes: nothing on error or empty text, otherwise one
finding per AnalyzeLogs issue. -/
def logFindingsOf (fetched : Option String) (c : ContainerStatus)
    (isInit : Bool) : List DoctorFinding :=
  match fetched with
  | some logs =>
    if logs = "" then []
    else (AnalyzeLogs logs).map (fun issue => mkLogFinding issue c isInit)
  | none => []

/-- Section 3 of tui.analyzeContainer: when shouldAnalyzeLogs holds, one
ShowLog call with tail limit "100" and previous set exactly when the
container restarted; there is no fallback fetch on this path. -/
def logFindings (fetchLog : String → Bool → Option String)
    (c : ContainerStatus) (isInit : Bool) : List DoctorFinding :=
  if shouldAnalyzeLogs c then
    logFindingsOf (fetchLog "100" (decide (0 < c.restartCount))) c isInit
  else []

/-- tui.analyzeContainer: the three numbered sections of the source,
concatenated in order. -/
def analyzeContainer (fetchLog : String → Bool → Option String)
    (c : ContainerStatus) (isInit : Bool) : List DoctorFinding :=
  stateFindings c isInit ++ stabilityFindings c isInit ++
    logFindings fetchLog c isInit

/-- tui.fetchPodDoctor: findings of every init container then every
regular container of the pod. -/
def fetchPodDoctorFindings (fetchLog : String → Bool → Option String)
    (pod : Pod) : List DoctorFinding :=
  (pod.status.initContainerStatuses.flatMap
    (fun c => analyzeContainer fetchLog c true))
  ++ (pod.status.containerStatuses.flatMap
    (fun c => analyzeContainer fetchLog c false))

/-! ## internal/tui: the dashboard state machine (src/internal/tui/tui.go)

The bubbletea loop delivers messages serially to Update, which returns the
next model and commands.  Commands are embedded as effect descriptions;
the bubbles list and viewport widgets and the lipgloss doctor rendering
are external library code, passed in as an Externals record.  The Go
method loadTabContent has a value receiver, so its writes to
isDoctorLoading and doctorResults mutate a copy that is discarded when it
returns; it is therefore embedded as a pure function producing only the
fetch effect. -/

/-- A list item: the two closed variants the program constructs. -/
inductive Item where
  | pod (p : Pod)
  | pipelineRun (name : String)
  deriving DecidableEq, Repr

/-- The bubbles list widget state the dashboard observes: items, cursor,
size. -/
structure ListState where
  items : List Item := []
  index : Nat := 0
  width : Int := 0
  height : Int := 0
  deriving DecidableEq, Repr

/-- A bubbles viewport: size, stored content, scroll offset. -/
structure Viewport where
  width : Int := 0
  height : Int := 0
  content : String := ""
  yOffset : Int := 0
  deriving DecidableEq, Repr

/-- The key strings tui.Update switches on (Key.other covers every string
not matched by a case). -/
inductive Key where
  | tab
  | one
  | two
  | three
  | four
  | ctrlC
  | q
  | enter
  | left
  | right
  | other (s : String)
  deriving DecidableEq, Repr

/-- tui.Model (the Go Model struct; widget internals are the observable
fields above). -/
structure TuiModel where
  listState : ListState := {}
  viewport : Viewport := {}
  eventsViewport : Viewport := {}
  doctorViewport : Viewport := {}
  ready : Bool := false
  width : Int := 0
  height : Int := 0
  activeTab : Nat := 0
  resourceType : String := "pod"
  namespaceName : String := ""
  err : Option String := none
  chosenItem : Option Item := none
  doctorResults : Option DoctorResults := none
  isDoctorLoading : Bool := false
  focusedPane : Nat := 0
  deriving Repr

/-- Pane constant paneList = 0. -/
def paneList : Nat := 0

/-- Pane constant paneDetails = 1. -/
def paneDetails : Nat := 1

/-- Tab constant tabOverview = 0. -/
def tabOverview : Nat := 0

/-- Tab constant tabLogs = 1. -/
def tabLogs : Nat := 1

/-- Tab constant tabEvents = 2. -/
def tabEvents : Nat := 2

/-- Tab constant tabDoctor = 3. -/
def tabDoctor : Nat := 3

/-- Layout constant minListWidth = 30. -/
def minListWidth : Int := 30

/-- Layout constant minDetailsWidth = 40. -/
def minDetailsWidth : Int := 40

/-- Layout constant minHeight = 10. -/
def minHeight : Int := 10

/-- tui.ResourceMsg. -/
structure ResourceMsgData where
  items : List Item := []
  err : Option String := none
  deriving Repr

/-- tui.LogsMsg: a content string and an optional error, nothing
identifying which request produced it. -/
structure LogsMsgData where
  content : String := ""
  err : Option String := none
  deriving DecidableEq, Repr

/-- tui.EventsMsg: same shape as LogsMsg. -/
structure EventsMsgData where
  content : String := ""
  err : Option String := none
  deriving DecidableEq, Repr

/-- tui.DoctorMsg: optional results and an optional error. -/
structure DoctorMsgData where
  results : Option DoctorResults := none
  err : Option String := none
  deriving DecidableEq, Repr

/-- The tagged messages tui.Update consumes. -/
inductive Msg where
  | resource (d : ResourceMsgData)
  | logs (d : LogsMsgData)
  | events (d : EventsMsgData)
  | doctorMsg (d : DoctorMsgData)
  | key (k : Key)
  | windowSize (w h : Int)
  deriving Repr

/-- The commands Update schedules, as effect descriptions. -/
inductive Effect where
  | fetchLogs (it : Item)
  | fetchEvents (it : Item)
  | fetchDoctor (it : Item)
  | quit
  deriving DecidableEq, Repr

/-- External library behavior the loop drives: the bubbles list update,
the bubbles viewport update, and the lipgloss rendering of doctor results
to styled text. -/
structure Externals where
  listUpdate : ListState → Key → ListState
  vpUpdate : Viewport → Key → Viewport
  renderDoctor : Option DoctorResults → Int → String

/-- m.list.SelectedItem(): the item under the cursor, nil when out of
range. -/
def selectedItem (m : TuiModel) : Option Item :=
  m.listState.items.get? m.listState.index

/-- tui.loadTabContent as it actually behaves: only the returned fetch
command survives the value receiver, so the isDoctorLoading and
doctorResults writes on the Doctor branch are lost. -/
def loadTabContent (m : TuiModel) (it : Item) : Option Effect :=
  if m.activeTab = tabLogs then some (.fetchLogs it)
  else if m.activeTab = tabEvents then some (.fetchEvents it)
  else if m.activeTab = tabDoctor then some (.fetchDoctor it)
  else none

/-- The routed-input tail of the KeyMsg branch: unmatched keys go to the
list widget when the list pane is focused, else to the active tab
viewport (the Overview case updates nothing). -/
def routedInput (ext : Externals) (m : TuiModel) (k : Key) :
    TuiModel × List Effect :=
  if m.focusedPane = paneList then
    ({ m with listState := ext.listUpdate m.listState k }, [])
  else if m.activeTab = tabLogs then
    ({ m with viewport := ext.vpUpdate m.viewport k }, [])
  else if m.activeTab = tabEvents then
    ({ m with eventsViewport := ext.vpUpdate m.eventsViewport k }, [])
  else if m.activeTab = tabDoctor then
    ({ m with doctorViewport := ext.vpUpdate m.doctorViewport k }, [])
  else (m, [])

/-- The tab-switch helper shared by the cycle key and the direct index
keys: set the active tab, then schedule that tab's fetch when an item is
selected. -/
def switchTab (m : TuiModel) (newTab : Nat) : TuiModel × List Effect :=
  let m := { m with activeTab := newTab }
  match selectedItem m with
  | some it => (m, (loadTabContent m it).toList)
  | none => (m, [])

/-- The KeyMsg branch of tui.Update. -/
def updateKey (ext : Externals) (m : TuiModel) (k : Key) :
    TuiModel × List Effect :=
  match k with
  | .tab => switchTab m ((m.activeTab + 1) % 4)
  | .one => switchTab m 0
  | .two => switchTab m 1
  | .three => switchTab m 2
  | .four => switchTab m 3
  | .ctrlC => (m, [.quit])
  | .q => (m, [.quit])
  | .enter =>
    if m.focusedPane = paneList then
      ({ m with chosenItem := selectedItem m }, [.quit])
    else routedInput ext m .enter
  | .left => ({ m with focusedPane := paneList }, [])
  | .right => ({ m with focusedPane := paneDetails }, [])
  | .other s => routedInput ext m (.other s)

/-- The WindowSizeMsg branch of tui.Update (appStyle has zero margins, so
its frame size is zero): clamp to the layout minima, recompute the list
and viewport geometry, set ready. -/
def updateWindowSize (m : TuiModel) (w h : Int) : TuiModel × List Effect :=
  let width := w - 0
  let height := h - 0
  let width := if width < minListWidth + minDetailsWidth then
      minListWidth + minDetailsWidth else width
  let height := if height < minHeight then minHeight else height
  let listWidth := width / 3
  let listWidth := if listWidth < minListWidth then minListWidth else listWidth
  let detailsWidth := width - listWidth - 2
  let detailsWidth := if detailsWidth < minDetailsWidth then minDetailsWidth
    else detailsWidth
  let viewportHeight := height - 4
  let viewportHeight := if viewportHeight < 5 then 5 else viewportHeight
  let resize := fun (vp : Viewport) =>
    { vp with width := detailsWidth - 2, height := viewportHeight }
  ({ m with
      width := width, height := height,
      listState := { m.listState with width := listWidth, height := height },
      viewport := resize m.viewport,
      eventsViewport := resize m.eventsViewport,
      doctorViewport := resize m.doctorViewport,
      ready := true }, [])

/-- tui.Update: each completion message overwrites its own pane content
unconditionally (there is no request identity to compare against), key
messages dispatch as in the source, resizes recompute the layout. -/
def Update (ext : Externals) (m : TuiModel) (msg : Msg) :
    TuiModel × List Effect :=
  match msg with
  | .resource d =>
    match d.err with
    | some e => ({ m with err := some e }, [])
    | none => ({ m with listState := { m.listState with items := d.items } }, [])
  | .logs d =>
    match d.err with
    | some e =>
      ({ m with viewport :=
        { m.viewport with content := "Error fetching logs: " ++ e } }, [])
    | none => ({ m with viewport := { m.viewport with content := d.content } }, [])
  | .events d =>
    match d.err with
    | some e =>
      ({ m with eventsViewport :=
        { m.eventsViewport with content := "Error fetching events: " ++ e } }, [])
    | none =>
      ({ m with eventsViewport :=
        { m.eventsViewport with content := d.content } }, [])
  | .doctorMsg d =>
    let m := { m with isDoctorLoading := false }
    match d.err with
    | some e =>
      ({ m with doctorViewport :=
        { m.doctorViewport with content :=
          "Error performing doctor analysis: " ++ e } }, [])
    | none =>
      let rendered := ext.renderDoctor d.results m.doctorViewport.width
      let dvp := { m.doctorViewport with content := rendered }
      ({ m with doctorResults := d.results, doctorViewport := dvp }, [])
  | .key k => updateKey ext m k
  | .windowSize w h => updateWindowSize m w h

/-- Serial delivery of a message list through Update, keeping the models
(the bubbletea loop consumes completions one at a time). -/
def updates (ext : Externals) (m : TuiModel) : List Msg → TuiModel
  | [] => m
  | msg :: rest => updates ext (Update ext m msg).1 rest

/-! ### The render path (branch structure of View and renderDetails)

Both Go functions return styled text; the embedding records which branch
is taken and the data that branch displays, abstracting the lipgloss
styling the spec places out of scope. -/

/-- The branches of tui.renderDetails and the data each one shows. -/
inductive DetailsView where
  | errorView (msg : String)
  | noItem
  | overview (it : Item)
  | logsView (content : String)
  | eventsView (content : String)
  | doctorLoading
  | doctorView (content : String)
  | emptyView
  deriving DecidableEq, Repr

/-- tui.renderDetails: error banner, no-selection notice, else the active
tab body; the Doctor tab shows the loading indicator only while
isDoctorLoading is set. -/
def renderDetails (m : TuiModel) : DetailsView :=
  match m.err with
  | some e => .errorView e
  | none =>
    match selectedItem m with
    | none => .noItem
    | some it =>
      if m.activeTab = tabOverview then .overview it
      else if m.activeTab = tabLogs then .logsView m.viewport.content
      else if m.activeTab = tabEvents then .eventsView m.eventsViewport.content
      else if m.activeTab = tabDoctor then
        (if m.isDoctorLoading then .doctorLoading
         else .doctorView m.doctorViewport.content)
      else .emptyView

/-- The branches of tui.View. -/
inductive ViewResult where
  | initializing
  | tooSmall
  | layout (details : DetailsView) (activeTab focusedPane : Nat)
  deriving DecidableEq, Repr

/-- tui.View: the initializing notice before the first resize, the
too-small notice when a stored dimension is nonpositive, else the full
layout. -/
def View (m : TuiModel) : ViewResult :=
  if !m.ready then .initializing
  else if m.width ≤ 0 || m.height ≤ 0 then .tooSmall
  else .layout (renderDetails m) m.activeTab m.focusedPane

/-! ## main.go: printEventsTimeline (lines 619-708)

The kubectl fetch and JSON decode precede the processing and are external;
the embedding starts from the decoded event list.  time.Parse is an
oracle parse : String -> Option Int giving seconds since the epoch (none
on parse error); the zero time.Time a failed parse leaves behind is its
epoch-seconds value. -/

/-- main.Event, the decoded kubectl event. -/
structure Event where
  lastTimestamp : String := ""
  typ : String := ""
  reason : String := ""
  message : String := ""
  count : Int := 0
  deriving DecidableEq, Repr

/-- Lexicographic order on char lists; on UTF-8 data this coincides with
the byte order strings.Compare uses. -/
def charsLe : List Char → List Char → Bool
  | [], _ => true
  | _ :: _, [] => false
  | c :: cs, d :: ds => if c = d then charsLe cs ds else decide (c < d)

/-- The sort key comparison of the SortFunc call: ascending
lastTimestamp. -/
def eventLe (a b : Event) : Bool :=
  charsLe a.lastTimestamp.data b.lastTimestamp.data

/-- Ordered insertion (helper for the sort below). -/
def insertSorted (le : Event → Event → Bool) (x : Event) :
    List Event → List Event
  | [] => [x]
  | y :: ys => if le x y then x :: y :: ys else y :: insertSorted le x ys

/-- The slices.SortFunc call, modelled as a comparator-consistent sort
(SortFunc is an unstable sort, so only the ordering is specified). -/
def sortEvents (le : Event → Event → Bool) : List Event → List Event
  | [] => []
  | x :: xs => insertSorted le x (sortEvents le xs)

/-- The timestamp filter: keep events whose lastTimestamp is nonempty. -/
def validEvents (items : List Event) : List Event :=
  items.filter (fun e => e.lastTimestamp ≠ "")

/-- Seconds-since-epoch of the zero time.Time value (year 1), which a
doubly failed creation-time parse leaves in place. -/
def goZeroTimeSeconds : Int := -62135596800

/-- The pod creation reference time: the parsed creation timestamp, else
the parsed timestamp of the first (earliest) sorted event, else the zero
time. -/
def creationSeconds (parse : String → Option Int) (creationTimestamp : String)
    (sorted : List Event) : Int :=
  match parse creationTimestamp with
  | some t => t
  | none =>
    match sorted with
    | [] => goZeroTimeSeconds
    | e :: _ =>
      match parse e.lastTimestamp with
      | some t => t
      | none => goZeroTimeSeconds

/-- Go fmt %02d for the nonnegative values this path produces. -/
def goFmt2 (n : Int) : String :=
  if 0 ≤ n ∧ n < 10 then "0" ++ toString n else toString n

/-- The offset formatting block of the loop body.  The source line
reading minutes %= minutes is executed verbatim: Go evaluates
minutes % minutes, which panics with an integer divide by zero whenever
minutes = 0, that is whenever the offset is under one minute; none
records that panic, and when minutes is nonzero the quotient is 0. -/
def formatOffset (diff : Int) : Option String :=
  let totalSeconds := diff
  let minutes := totalSeconds / 60
  let seconds := totalSeconds % 60
  let hours := minutes / 60
  if minutes = 0 then none
  else
    let minutes := minutes % minutes
    if 0 < hours then
      some (goFmt2 hours ++ ":" ++ goFmt2 minutes ++ ":" ++ goFmt2 seconds)
    else
      some (goFmt2 minutes ++ ":" ++ goFmt2 seconds)

/-- What one loop iteration contributes. -/
inductive LineResult where
  | skipped
  | line (s : String)
  | panicked
  deriving DecidableEq, Repr

/-- One loop iteration: unparsable timestamps are skipped (continue), the
offset is clamped to be nonnegative, and the formatted line carries the
reason and message. -/
def eventLine (parse : String → Option Int) (creation : Int) (e : Event) :
    LineResult :=
  match parse e.lastTimestamp with
  | none => .skipped
  | some t =>
    let diff := max (t - creation) 0
    match formatOffset diff with
    | none => .panicked
    | some s => .line (s ++ " " ++ e.reason ++ " (" ++ e.message ++ ")")

/-- The printing loop: a panic aborts the whole run (none); otherwise the
emitted lines in order. -/
def timelineLines (parse : String → Option Int) (creation : Int) :
    List Event → Option (List String)
  | [] => some []
  | e :: rest =>
    match eventLine parse creation e with
    | .panicked => none
    | .skipped => timelineLines parse creation rest
    | .line s => (timelineLines parse creation rest).map (fun ls => s :: ls)

/-- The outcomes of the processing stage of printEventsTimeline. -/
inductive TimelineResult where
  | noEvents
  | noTimestampedEvents
  | printed (lines : List String)
  | crashed
  deriving DecidableEq, Repr

/-- main.printEventsTimeline from the decoded event list on: empty-list
notices, the timestamp filter, the ascending sort, the creation-time
reference with fallback, and the formatting loop. -/
def printEventsTimeline (parse : String → Option Int)
    (creationTimestamp : String) (items : List Event) : TimelineResult :=
  if items = [] then .noEvents
  else
    let valid := validEvents items
    if valid = [] then .noTimestampedEvents
    else
      let sorted := sortEvents eventLe valid
      let creation := creationSeconds parse creationTimestamp sorted
      match timelineLines parse creation sorted with
      | none => .crashed
      | some ls => .printed ls

/-! ## Fixtures and auxiliary predicates used by the verification -/

/-- Two strings are case variants when they agree after rune-wise
lowering (for example a string and its uppercase form). -/
def caseVariant (s t : String) : Prop :=
  s.data.map Char.toLower = t.data.map Char.toLower

/-- A concrete collaborator instance: inert widgets and a constant doctor
renderer, enough to evaluate the loop on concrete traces. -/
def extId : Externals :=
  { listUpdate := fun l _ => l, vpUpdate := fun v _ => v,
    renderDoctor := fun _ _ => "" }

/-- A concrete pod fixture. -/
def podA : Pod := { metadata := { name := "pod-a" } }

/-- The pod fixture as a list item. -/
def itemA : Item := .pod podA

/-- A ready dashboard showing the Logs tab with the pod fixture
selected. -/
def mLogs : TuiModel :=
  { listState := { items := [itemA] }, ready := true, width := 100,
    height := 30, activeTab := tabLogs, focusedPane := paneDetails }

/-- A ready dashboard showing the Events tab with stale Doctor viewport
content, the state just before cycling to the Doctor tab. -/
def mEvents : TuiModel :=
  { listState := { items := [itemA] }, ready := true, width := 100,
    height := 30, activeTab := tabEvents,
    doctorViewport := { content := "stale doctor report" } }

/-- A ready dashboard whose stored width (50) is below the layout minimum
(minListWidth + minDetailsWidth = 70). -/
def mSmall : TuiModel :=
  { listState := { items := [itemA] }, ready := true, width := 50,
    height := 30 }

/-- A log oracle on which every fetch fails. -/
def fetchNone : String → Bool → Option String := fun _ _ => none

/-- A log oracle on which the previous-instance log is unavailable while
the current log exists and matches a log rule. -/
def fetchCurrentOnly : String → Bool → Option String :=
  fun _ prev => if prev then none else some "connection refused"

/-- A log oracle on which both the previous and the current log are
available and nonempty. -/
def fetchPrevRich : String → Bool → Option String :=
  fun _ prev => if prev then some "timeout waiting" else some "current"

/-- A running container with a single restart and no issues. -/
def cRunningOnce : ContainerStatus :=
  { name := "app", state := { running := some {} }, restartCount := 1 }

/-- A running container with five restarts whose last state terminated
with exit code 137, so state analysis already reports an issue. -/
def cRunningOOM : ContainerStatus :=
  { name := "app", state := { running := some {} }, restartCount := 5,
    lastState := some { terminated := some { exitCode := 137 } } }

/-- A terminated container with two restarts, the shape on which the
previous-log preference applies. -/
def cCrashed : ContainerStatus :=
  { name := "app", state := { terminated := some { exitCode := 1 } },
    restartCount := 2 }

/-- A terminated container with exit code 137 and no waiting state. -/
def cOOM : ContainerStatus :=
  { name := "app", state := { terminated := some { exitCode := 137 } } }

/-- A time oracle for the event fixture: the pod creation instant maps to
second 0 and the event instant to second 30. -/
def parse5 : String → Option Int :=
  fun s =>
    if s = "2024-01-01T00:00:00Z" then some 0
    else if s = "2024-01-01T00:00:30Z" then some 30
    else none

/-- An event 30 seconds after pod creation. -/
def ev5 : Event :=
  { lastTimestamp := "2024-01-01T00:00:30Z", typ := "Normal",
    reason := "Pulled", message := "image pulled" }

/-! ## Theorems -/

/-- C8: a container whose current state is Terminated with exit code 137
(so the waiting member of the state union is absent) gets exactly one
issue from AnalyzeContainerState, and it mentions OOMKilled. -/
theorem c8_terminated137_singleOOMIssue (c : ContainerStatus)
    (t : TerminatedState) (hterm : c.state.terminated = some t)
    (hcode : t.exitCode = 137) (hwait : c.state.waiting = none) :
    ∃ issue, AnalyzeContainerState c = [issue] ∧
      goContains issue "OOMKilled" = true := by
  refine ⟨oomMsg, ?_, by decide⟩
  unfold AnalyzeContainerState
  rw [hterm, hwait]
  simp [terminatedIssues, hcode]

/-- Witness for C8 at a concrete container. -/
theorem c8_witness :
    ∃ issue, AnalyzeContainerState cOOM = [issue] ∧
      goContains issue "OOMKilled" = true :=
  c8_terminated137_singleOOMIssue cOOM { exitCode := 137 } rfl rfl rfl

/-- C9: AnalyzeLogs of the empty string is empty, and AnalyzeLogs is
invariant under case variation of its input. -/
theorem c9_analyzeLogsEmptyAndCaseInvariant :
    AnalyzeLogs "" = [] ∧
      ∀ s t, caseVariant s t → AnalyzeLogs s = AnalyzeLogs t := by
  refine ⟨rfl, ?_⟩
  intro s t h
  have hlow : goToLower s = goToLower t := congrArg String.mk h
  have hemp : (s = "") ↔ (t = "") := by
    unfold caseVariant at h
    constructor
    · intro hs
      subst hs
      have hdata : t.data = [] := by
        have h2 : t.data.map Char.toLower = [] := h.symm
        exact List.map_eq_nil_iff.mp h2
      cases t with
      | mk data => simp_all
    · intro ht
      subst ht
      have hdata : s.data = [] := by
        have h2 : s.data.map Char.toLower = [] := h
        exact List.map_eq_nil_iff.mp h2
      cases s with
      | mk data => simp_all
  unfold AnalyzeLogs
  by_cases hs : s = ""
  · rw [if_pos hs, if_pos (hemp.mp hs)]
  · rw [if_neg hs, if_neg (fun ht => hs (hemp.mpr ht)), hlow]

/-- Witness for C9: the two capitalizations of the spec example agree. -/
theorem c9_witness :
    AnalyzeLogs "CONNECTION REFUSED" = AnalyzeLogs "connection refused" :=
  c9_analyzeLogsEmptyAndCaseInvariant.2 "CONNECTION REFUSED"
    "connection refused" (by unfold caseVariant; decide)

/-- C3 counterexample: the CLI orchestration emits its stability warning
for a running container with a single restart (not more than three), and
the dashboard analysis emits its stability warning next to another
finding (not only when no other issues were found). -/
theorem c3_counterexample :
    diagnoseContainerCLI fetchNone true cRunningOnce =
      ContainerReport.stabilityWarning 1
    ∧ ¬ (3 < cRunningOnce.restartCount)
    ∧ (stateFindings cRunningOOM false).length = 1
    ∧ stabilityFindings cRunningOOM false ≠ []
    ∧ (analyzeContainer fetchNone cRunningOOM false).length = 2 := by
  refine ⟨by decide, by decide, by decide, by decide, by decide⟩

/-- C3 amended: the dashboard analysis emits its stability warning
exactly for a running container with more than three restarts, regardless
of other findings; the CLI orchestration emits its stability warning
exactly when the Doctor flag is set, the container is running with at
least one restart, and no other issues (state or log) were found. -/
theorem c3_amended (fetchLog : String → Bool → Option String)
    (doctorFlag : Bool) (c : ContainerStatus) (isInit : Bool) :
    (analyzeContainer fetchLog c isInit =
      stateFindings c isInit ++ stabilityFindings c isInit ++
        logFindings fetchLog c isInit)
    ∧ (stabilityFindings c isInit ≠ [] ↔
        (c.state.running.isSome = true ∧ 3 < c.restartCount))
    ∧ ((diagnoseContainerCLI fetchLog doctorFlag c).isStabilityWarning = true ↔
        (cliIssues fetchLog c = [] ∧ doctorFlag = true ∧
          c.state.running.isSome = true ∧ 0 < c.restartCount)) := by
  refine ⟨rfl, ?_, ?_⟩
  · constructor
    · intro hne
      unfold stabilityFindings at hne
      split_ifs at hne with h
      · simpa using h
      · exact absurd rfl hne
    · intro hc
      unfold stabilityFindings
      rw [if_pos (by simpa using hc)]
      simp
  · unfold diagnoseContainerCLI
    by_cases h1 : cliIssues fetchLog c = []
    · rw [if_neg (by simpa using h1)]
      by_cases h2 : (doctorFlag && c.state.running.isSome &&
          decide (0 < c.restartCount)) = true
      · rw [if_pos h2]
        have h2c := h2
        simp only [Bool.and_eq_true, decide_eq_true_eq] at h2c
        simp [ContainerReport.isStabilityWarning, h1, h2c.1.1, h2c.1.2, h2c.2]
      · rw [if_neg h2]
        simp only [ContainerReport.isStabilityWarning]
        constructor
        · intro hfalse
          simp at hfalse
        · intro hc
          exact absurd (by simp [hc.2.1, hc.2.2.1, hc.2.2.2]) h2
    · rw [if_pos (by simpa using h1)]
      simp only [ContainerReport.isStabilityWarning]
      constructor
      · intro hfalse
        simp at hfalse
      · intro hc
        exact absurd hc.1 h1

/-- C4 counterexample: with two restarts and the previous-instance log
unavailable, the dashboard analysis appends no log findings even though
the current log matches a rule (the fallback the claim requires exists
only in the CLI path, which does find the issue). -/
theorem c4_counterexample :
    logFindings fetchCurrentOnly cCrashed false = []
    ∧ cliIssues fetchCurrentOnly cCrashed =
        AnalyzeContainerState cCrashed ++ AnalyzeLogs "connection refused"
    ∧ AnalyzeLogs "connection refused" ≠ [] := by
  refine ⟨by decide, by decide, by decide⟩

/-- C4 amended: both paths gate log analysis on the same condition
(terminated, or restarted, or waiting in CrashLoopBackOff) and fetch with
tail limit 100; the CLI path prefers the previous-instance log when the
container restarted and falls back to the current log when that fetch
fails or is empty, appending AnalyzeLogs results of the text obtained;
the dashboard path performs a single fetch (previous instance exactly
when the container restarted) with no fallback. -/
theorem c4_amended (f : String → Bool → Option String) (r : Int)
    (c : ContainerStatus) (isInit : Bool) (l : String) :
    (cliShouldFetchLogs c = shouldAnalyzeLogs c)
    ∧ (shouldAnalyzeLogs c = true ↔
        (c.state.terminated.isSome = true ∨ 0 < c.restartCount ∨
          (∃ w, c.state.waiting = some w ∧ w.reason = "CrashLoopBackOff")))
    ∧ (0 < r → f "100" true = some l → l ≠ "" →
        cliLogsForAnalysis f r = some l)
    ∧ (0 < r → (f "100" true = none ∨ f "100" true = some "") →
        cliLogsForAnalysis f r = f "100" false)
    ∧ (r ≤ 0 → cliLogsForAnalysis f r = f "100" false)
    ∧ (shouldAnalyzeLogs c = true →
        cliLogsForAnalysis f c.restartCount = some l → l ≠ "" →
        cliIssues f c = AnalyzeContainerState c ++ AnalyzeLogs l)
    ∧ (shouldAnalyzeLogs c = false →
        cliIssues f c = AnalyzeContainerState c ∧ logFindings f c isInit = [])
    ∧ (logFindings f c isInit =
        if shouldAnalyzeLogs c then
          logFindingsOf (f "100" (decide (0 < c.restartCount))) c isInit
        else []) := by
  refine ⟨rfl, ?_, ?_, ?_, ?_, ?_, ?_, rfl⟩
  · unfold shouldAnalyzeLogs
    constructor
    · intro h
      simp only [Bool.or_eq_true, decide_eq_true_eq] at h
      rcases h with (h | h) | h
      · exact Or.inl h
      · exact Or.inr (Or.inl h)
      · rcases hw : c.state.waiting with _ | w
        · rw [hw] at h
          simp at h
        · rw [hw] at h
          simp only [decide_eq_true_eq] at h
          exact Or.inr (Or.inr ⟨w, rfl, h⟩)
    · intro h
      simp only [Bool.or_eq_true, decide_eq_true_eq]
      rcases h with h | h | ⟨w, hw, hr⟩
      · exact Or.inl (Or.inl h)
      · exact Or.inl (Or.inr h)
      · rw [hw]
        simp [hr]
  · intro hr hf hl
    unfold cliLogsForAnalysis
    simp [hr, hf, hl]
  · intro hr hf
    unfold cliLogsForAnalysis
    rcases hf with hf | hf <;> simp [hr, hf]
  · intro hr
    unfold cliLogsForAnalysis
    have : ¬ (0 < r) := by omega
    simp [this]
  · intro hs hlogs hl
    unfold cliIssues
    have hcli : cliShouldFetchLogs c = true := hs
    rw [hcli, hlogs]
    simp [hl]
  · intro hs
    have hcli : cliShouldFetchLogs c = false := hs
    constructor
    · unfold cliIssues
      rw [hcli]
      simp
    · unfold logFindings
      rw [hs]
      simp

/-- Witness for C4 at concrete oracles: with two restarts the previous
log is preferred when nonempty, and the current log is fetched when the
previous fetch fails. -/
theorem c4_amended_witness :
    cliLogsForAnalysis fetchPrevRich 2 = some "timeout waiting"
    ∧ cliLogsForAnalysis fetchNone 2 = fetchNone "100" false := by
  constructor
  · exact (c4_amended fetchPrevRich 2 cCrashed false "timeout waiting").2.2.1
      (by norm_num) rfl (by decide)
  · exact (c4_amended fetchNone 2 cCrashed false "").2.2.2.1
      (by norm_num) (Or.inl rfl)

/-- C5: the CLI events timeline crashes on sub-minute offsets.  The line
minutes %= minutes divides by zero whenever the computed minutes value is
0, i.e. exactly when the clamped offset is under one minute, so the
processing is not total: a single event 30 seconds after pod creation
aborts the run.  (At 60 seconds and above it survives, with the minutes
digits always rendered as zero by the same faulty line.) -/
theorem c5_subMinuteOffsetCrashes :
    printEventsTimeline parse5 "2024-01-01T00:00:00Z" [ev5] =
      TimelineResult.crashed
    ∧ (∀ diff : Int, formatOffset diff = none ↔ diff / 60 = 0)
    ∧ formatOffset 59 = none
    ∧ formatOffset 60 = some "00:00" := by
  refine ⟨by decide, ?_, by decide, by decide⟩
  intro diff
  unfold formatOffset
  by_cases h : diff / 60 = 0
  · simp [h]
  · simp [h]
    split <;> simp

/-- C7: processing a resize to 100 by 30 yields a list pane width of 33,
a detail viewport height of 26, and sets the ready flag, from any prior
state. -/
theorem c7_resizeLayout (ext : Externals) (m : TuiModel) :
    (Update ext m (.windowSize 100 30)).1.listState.width = 33
    ∧ (Update ext m (.windowSize 100 30)).1.viewport.height = 26
    ∧ (Update ext m (.windowSize 100 30)).1.ready = true := by
  refine ⟨?_, ?_, ?_⟩ <;> rfl

/-- C6 counterexample: a ready state whose stored width (50) is below the
layout minimum (70) renders the normal layout, not the too-small notice;
the source only shows the notice for nonpositive dimensions. -/
theorem c6_counterexample :
    View mSmall ≠ ViewResult.tooSmall
    ∧ mSmall.width < minListWidth + minDetailsWidth
    ∧ mSmall.ready = true := by
  refine ⟨by decide, by decide, by decide⟩

/-- C6 amended: the too-small notice is rendered exactly when the model
is ready and a stored dimension is nonpositive; a resize clamps the
stored dimensions to at least the layout minima, sets ready, emits no
effects, and preserves all non-layout state (so the condition resolves
with no state loss on the next resize). -/
theorem c6_amended (ext : Externals) (m : TuiModel) (w h : Int) :
    (View m = ViewResult.tooSmall ↔
      (m.ready = true ∧ (m.width ≤ 0 ∨ m.height ≤ 0)))
    ∧ (Update ext m (.windowSize w h)).1.ready = true
    ∧ minListWidth + minDetailsWidth ≤ (Update ext m (.windowSize w h)).1.width
    ∧ minHeight ≤ (Update ext m (.windowSize w h)).1.height
    ∧ (Update ext m (.windowSize w h)).1.listState.items = m.listState.items
    ∧ (Update ext m (.windowSize w h)).1.listState.index = m.listState.index
    ∧ (Update ext m (.windowSize w h)).1.viewport.content = m.viewport.content
    ∧ (Update ext m (.windowSize w h)).1.eventsViewport.content =
        m.eventsViewport.content
    ∧ (Update ext m (.windowSize w h)).1.doctorViewport.content =
        m.doctorViewport.content
    ∧ (Update ext m (.windowSize w h)).1.activeTab = m.activeTab
    ∧ (Update ext m (.windowSize w h)).1.focusedPane = m.focusedPane
    ∧ (Update ext m (.windowSize w h)).1.chosenItem = m.chosenItem
    ∧ (Update ext m (.windowSize w h)).1.err = m.err
    ∧ (Update ext m (.windowSize w h)).1.doctorResults = m.doctorResults
    ∧ (Update ext m (.windowSize w h)).2 = [] := by
  refine ⟨?_, ?_, ?_, ?_, rfl, rfl, rfl, rfl, rfl, rfl, rfl, rfl, rfl, rfl, rfl⟩
  · unfold View
    rcases hr : m.ready with _ | _
    · simp
    · by_cases hwh : m.width ≤ 0 ∨ m.height ≤ 0
      · rw [if_neg (by simp), if_pos (by simpa using hwh)]
        simp [hwh]
      · rw [if_neg (by simp), if_neg (by simpa using hwh)]
        simp [hwh]
  · rfl
  · show minListWidth + minDetailsWidth ≤ (updateWindowSize m w h).1.width
    unfold updateWindowSize minListWidth minDetailsWidth
    simp only []
    split <;> omega
  · show minHeight ≤ (updateWindowSize m w h).1.height
    unfold updateWindowSize minHeight
    simp only []
    split <;> omega

/-- Helper: the routed-input branch never changes the chosen item. -/
theorem routedInput_chosenItem (ext : Externals) (m : TuiModel) (k : Key) :
    (routedInput ext m k).1.chosenItem = m.chosenItem := by
  unfold routedInput
  split_ifs <;> rfl

/-- Helper: the routed-input branch never changes the doctor-loading
flag. -/
theorem routedInput_isDoctorLoading (ext : Externals) (m : TuiModel)
    (k : Key) :
    (routedInput ext m k).1.isDoctorLoading = m.isDoctorLoading := by
  unfold routedInput
  split_ifs <;> rfl

/-- Helper: a tab switch never changes the chosen item. -/
theorem switchTab_chosenItem (m : TuiModel) (n : Nat) :
    (switchTab m n).1.chosenItem = m.chosenItem := by
  unfold switchTab
  rcases h : selectedItem { m with activeTab := n } with _ | it <;> simp [h]

/-- Helper: a tab switch never changes the doctor-loading flag (this is
the value-receiver loss: loadTabContent only returns the fetch command). -/
theorem switchTab_isDoctorLoading (m : TuiModel) (n : Nat) :
    (switchTab m n).1.isDoctorLoading = m.isDoctorLoading := by
  unfold switchTab
  rcases h : selectedItem { m with activeTab := n } with _ | it <;> simp [h]

/-- Helper: no key message changes the doctor-loading flag. -/
theorem updateKey_isDoctorLoading (ext : Externals) (m : TuiModel) (k : Key) :
    (updateKey ext m k).1.isDoctorLoading = m.isDoctorLoading := by
  cases k with
  | tab => exact switchTab_isDoctorLoading m _
  | one => exact switchTab_isDoctorLoading m _
  | two => exact switchTab_isDoctorLoading m _
  | three => exact switchTab_isDoctorLoading m _
  | four => exact switchTab_isDoctorLoading m _
  | ctrlC => rfl
  | q => rfl
  | enter =>
    show (updateKey ext m .enter).1.isDoctorLoading = _
    unfold updateKey
    by_cases hp : m.focusedPane = paneList
    · rw [if_pos hp]
    · rw [if_neg hp]
      exact routedInput_isDoctorLoading ext m _
  | left => rfl
  | right => rfl
  | other s => exact routedInput_isDoctorLoading ext m _

/-- C10: with the details pane focused, Enter schedules nothing (in
particular no quit), leaves the chosen item and the list untouched, and
is routed to the active tab viewport; and across all keys, the chosen
item can only change through Enter while the list pane is focused. -/
theorem c10_enterDetailsFrame (ext : Externals) (m : TuiModel) :
    (m.focusedPane = paneDetails →
      (Update ext m (.key .enter)).2 = []
      ∧ (Update ext m (.key .enter)).1.chosenItem = m.chosenItem
      ∧ (Update ext m (.key .enter)).1.listState = m.listState
      ∧ (m.activeTab = tabLogs →
          (Update ext m (.key .enter)).1.viewport =
            ext.vpUpdate m.viewport .enter)
      ∧ (m.activeTab = tabEvents →
          (Update ext m (.key .enter)).1.eventsViewport =
            ext.vpUpdate m.eventsViewport .enter)
      ∧ (m.activeTab = tabDoctor →
          (Update ext m (.key .enter)).1.doctorViewport =
            ext.vpUpdate m.doctorViewport .enter))
    ∧ (∀ k, (Update ext m (.key k)).1.chosenItem ≠ m.chosenItem →
        k = .enter ∧ m.focusedPane = paneList) := by
  constructor
  · intro hpane
    have hnl : ¬ (m.focusedPane = paneList) := by
      rw [hpane]
      unfold paneDetails paneList
      omega
    have hred : Update ext m (.key .enter) = routedInput ext m .enter := by
      show updateKey ext m .enter = routedInput ext m .enter
      unfold updateKey
      rw [if_neg hnl]
    rw [hred]
    refine ⟨?_, routedInput_chosenItem ext m _, ?_, ?_, ?_, ?_⟩
    · unfold routedInput
      split_ifs <;> rfl
    · unfold routedInput
      rw [if_neg hnl]
      split_ifs <;> rfl
    · intro htab
      unfold routedInput
      rw [if_neg hnl, if_pos htab]
    · intro htab
      have hne1 : ¬ (m.activeTab = tabLogs) := by
        rw [htab]
        unfold tabEvents tabLogs
        omega
      unfold routedInput
      rw [if_neg hnl, if_neg hne1, if_pos htab]
    · intro htab
      have hne1 : ¬ (m.activeTab = tabLogs) := by
        rw [htab]
        unfold tabDoctor tabLogs
        omega
      have hne2 : ¬ (m.activeTab = tabEvents) := by
        rw [htab]
        unfold tabDoctor tabEvents
        omega
      unfold routedInput
      rw [if_neg hnl, if_neg hne1, if_neg hne2, if_pos htab]
  · intro k hk
    cases k with
    | tab => exact absurd (switchTab_chosenItem m _) hk
    | one => exact absurd (switchTab_chosenItem m _) hk
    | two => exact absurd (switchTab_chosenItem m _) hk
    | three => exact absurd (switchTab_chosenItem m _) hk
    | four => exact absurd (switchTab_chosenItem m _) hk
    | ctrlC => exact absurd rfl hk
    | q => exact absurd rfl hk
    | enter =>
      by_cases hp : m.focusedPane = paneList
      · exact ⟨rfl, hp⟩
      · refine absurd ?_ hk
        show (updateKey ext m .enter).1.chosenItem = m.chosenItem
        unfold updateKey
        rw [if_neg hp]
        exact routedInput_chosenItem ext m _
    | left => exact absurd rfl hk
    | right => exact absurd rfl hk
    | other s => exact absurd (routedInput_chosenItem ext m _) hk

/-- Witness for C10: on the concrete Logs-tab state with the details pane
focused, Enter schedules nothing and leaves the chosen item unchanged. -/
theorem c10_witness :
    (Update extId mLogs (Msg.key Key.enter)).2 = []
    ∧ (Update extId mLogs (Msg.key Key.enter)).1.chosenItem =
        mLogs.chosenItem := by
  have h := (c10_enterDetailsFrame extId mLogs).1 rfl
  exact ⟨h.1, h.2.1⟩

/-- C2: the Doctor-loading flag can never become true.  Update only ever
preserves or clears it (loadTabContent writes it on a value-receiver
copy that is discarded), so activating the Doctor tab schedules the
fetch but returns a model with the flag still false and the details pane
rendering the stale doctor viewport instead of the loading indicator. -/
theorem c2_doctorLoadingFlagNeverSet :
    (∀ (ext : Externals) (m : TuiModel) (msg : Msg),
      (Update ext m msg).1.isDoctorLoading =
        (match msg with
         | Msg.doctorMsg _ => false
         | _ => m.isDoctorLoading))
    ∧ (Update extId mEvents (Msg.key Key.tab)).1.activeTab = tabDoctor
    ∧ (Update extId mEvents (Msg.key Key.tab)).1.isDoctorLoading = false
    ∧ (Update extId mEvents (Msg.key Key.tab)).2 = [Effect.fetchDoctor itemA]
    ∧ renderDetails (Update extId mEvents (Msg.key Key.tab)).1 =
        DetailsView.doctorView "stale doctor report" := by
  refine ⟨?_, rfl, rfl, rfl, rfl⟩
  intro ext m msg
  cases msg with
  | resource d =>
    rcases d with ⟨items, err⟩
    cases err <;> rfl
  | logs d =>
    rcases d with ⟨content, err⟩
    cases err <;> rfl
  | events d =>
    rcases d with ⟨content, err⟩
    cases err <;> rfl
  | doctorMsg d =>
    rcases d with ⟨results, err⟩
    cases err <;> rfl
  | key k => exact updateKey_isDoctorLoading ext m k
  | windowSize w h => rfl

/-- C1: completion handlers overwrite the pane content as a function of
the delivered message alone (the messages carry no request identity to
compare against), so delivering the earlier-requested result after the
later-requested one leaves the earlier result on screen:
last-arrived-wins, not last-requested-wins. -/
theorem c1_lateArrivalOverwrites :
    (∀ (ext : Externals) (m : TuiModel) (d : LogsMsgData),
      (Update ext m (Msg.logs d)).1.viewport.content =
        (match d.err with
         | some e => "Error fetching logs: " ++ e
         | none => d.content))
    ∧ (∀ (ext : Externals) (m : TuiModel) (d : EventsMsgData),
      (Update ext m (Msg.events d)).1.eventsViewport.content =
        (match d.err with
         | some e => "Error fetching events: " ++ e
         | none => d.content))
    ∧ (∀ (ext : Externals) (m : TuiModel) (d : DoctorMsgData),
      (Update ext m (Msg.doctorMsg d)).1.doctorResults =
        (match d.err with
         | some _ => m.doctorResults
         | none => d.results))
    ∧ (updates extId mLogs
        [Msg.logs { content := "result of B" },
         Msg.logs { content := "result of A" }]).viewport.content =
        "result of A"
    ∧ "result of A" ≠ "result of B" := by
  refine ⟨?_, ?_, ?_, rfl, by decide⟩
  · intro ext m d
    rcases d with ⟨content, err⟩
    cases err <;> rfl
  · intro ext m d
    rcases d with ⟨content, err⟩
    cases err <;> rfl
  · intro ext m d
    rcases d with ⟨results, err⟩
    cases err <;> rfl

end Kss
